import Mathlib

/-!
Verification of the loki-suite webhook delivery and chain execution service.

The definitions below are a shallow embedding of the Go source:
  internal/service/execution_chain_service.go
  internal/service/webhook_service.go
  internal/repository/execution_chain_repository.go
  internal/models (model structs and status constants)
Machine integers are modelled as Int or Nat (no arithmetic in the embedded
code overflows), UUIDs and timestamps as abstract values, the database as
explicitly threaded record states, and outbound HTTP as an oracle supplying
the result of each attempt.
-/

namespace LokiSuite

/-- JSON values, the embedding of Go encoding/json data
(map[string]interface{} and friends).  Numbers are modelled as Int: no
claim depends on float behaviour.  Object fields are an association list. -/
inductive Json where
  | null : Json
  | bool (b : Bool) : Json
  | num (n : Int) : Json
  | str (s : String) : Json
  | arr (elems : List Json) : Json
  | obj (fields : List (String × Json)) : Json
deriving Repr

/-- Field lookup in a JSON object association list. -/
def lookupField : List (String × Json) → String → Option Json
  | [], _ => none
  | (k, v) :: rest, key => if k = key then some v else lookupField rest key

/-- Field access on a JSON value: some value for a present object field,
none otherwise. -/
def Json.getField : Json → String → Option Json
  | .obj fields, key => lookupField fields key
  | _, _ => none

/-- Status of webhook events and step runs
(models.WebhookStatus: pending, sent, failed). -/
inductive WebhookStatus where
  | pending : WebhookStatus
  | sent : WebhookStatus
  | failed : WebhookStatus
deriving Repr, DecidableEq

/-- Status of execution chains and chain runs
(models.ExecutionChainStatus: pending, running, completed, failed, paused). -/
inductive ExecutionChainStatus where
  | pending : ExecutionChainStatus
  | running : ExecutionChainStatus
  | completed : ExecutionChainStatus
  | failed : ExecutionChainStatus
  | paused : ExecutionChainStatus
deriving Repr, DecidableEq

/-- models.WebhookSubscription, restricted to the fields the verified code
paths read.  The Type column is modelled by isPrivateType
(Type == "private"); SecretToken and JWTToken are opaque strings. -/
structure WebhookSubscription where
  id : String
  tenantID : String
  appName : String
  targetURL : String
  subscribedEvent : String
  isPrivateType : Bool
  secretToken : String
  maxRetries : Int
  retryDelaySeconds : Int
  isActive : Bool
deriving Repr, DecidableEq

/-- The Go zero value of models.WebhookSubscription, as left on a chain
step built by CreateChain before any preload. -/
def WebhookSubscription.zero : WebhookSubscription :=
  ⟨"", "", "", "", "", false, "", 0, 0, false⟩

/-- models.ExecutionChainStep together with its preloaded Webhook
association.  RequestParams is a JSON text column; it is modelled as the
result of json.Unmarshal on that text: some fields when the stored text is
a JSON object, none when the column is empty or does not parse
(sendStepWebhook distinguishes exactly these cases). -/
structure ExecutionChainStep where
  id : String
  chainID : String
  stepOrder : Nat
  webhookID : String
  name : String
  requestParams : Option (List (String × Json))
  onSuccessAction : String
  onFailureAction : String
  maxRetries : Int
  delaySeconds : Int
  webhook : WebhookSubscription
deriving Repr

/-- models.CreateExecutionChainStep, the chain creation request DTO for one
step.  RequestParams is modelled like in ExecutionChainStep. -/
structure CreateExecutionChainStep where
  webhookID : String
  name : String
  description : String
  requestParams : Option (List (String × Json))
  onSuccessAction : String
  onFailureAction : String
  maxRetries : Int
  delaySeconds : Int
deriving Repr

/-- Result of one outbound HTTP POST: either a response with a status code
and body, or a transport error (http.Client.Do returned a non-nil error:
timeout, DNS failure, unusable target URL and so on). -/
inductive HttpResult where
  | response (code : Nat) (body : String) : HttpResult
  | transportError (msg : String) : HttpResult
deriving Repr, DecidableEq

/-- The request body built by
executionChainService.sendStepWebhook (execution_chain_service.go lines
474 to 494): a JSON object with step_name, step_order, trigger_data and
timestamp, plus request_params holding the unmarshalled step.RequestParams
verbatim when that column is a nonempty valid JSON object.  triggerData is
none when the Go map is nil (marshalled as JSON null). -/
def stepWebhookPayload (step : ExecutionChainStep) (triggerData : Option Json)
    (timestamp : String) : Json :=
  let base := [("step_name", Json.str step.name),
               ("step_order", Json.num step.stepOrder),
               ("trigger_data", triggerData.getD Json.null),
               ("timestamp", Json.str timestamp)]
  match step.requestParams with
  | some params => Json.obj (base ++ [("request_params", Json.obj params)])
  | none => Json.obj base

/-- The outcome classification of sendStepWebhook
(execution_chain_service.go lines 517 to 530): the returned tuple
(success, responseCode, responseBody, err).  A transport error yields
(false, nil, nil, err); a response yields success exactly when
200 <= code < 300, with code and body returned and err nil. -/
def sendStepWebhook (r : HttpResult) :
    Bool × Option Nat × Option String × Option String :=
  match r with
  | .transportError msg =>
      (false, none, none, some ("failed to send request: " ++ msg))
  | .response code body =>
      (decide (200 ≤ code ∧ code < 300), some code, some body, none)

/-- The persisted state of one models.ExecutionChainStepRun, restricted to
the columns executeStep writes.  completedAtSet records whether the
completed_at column has been written. -/
structure StepRunState where
  status : WebhookStatus
  attemptCount : Nat
  responseCode : Option Nat
  responseBody : Option String
  lastError : Option String
  completedAtSet : Bool
deriving Repr, DecidableEq

/-- The step run row as created by executeStep before any attempt
(status pending, no attempts recorded). -/
def initStepRunState : StepRunState :=
  ⟨.pending, 0, none, none, none, false⟩

/-- One iteration of the retry loop in executeStep
(execution_chain_service.go lines 416 to 467): the updates map applied to
the step run after one delivery attempt, together with the success flag.
isLast corresponds to attempt == step.MaxRetries. -/
def stepAttemptUpdate (attempt : Nat) (isLast : Bool) (r : HttpResult)
    (st : StepRunState) : StepRunState × Bool :=
  let o := sendStepWebhook r
  let st := { st with attemptCount := attempt + 1,
                      responseCode := o.2.1.or st.responseCode,
                      responseBody := o.2.2.1.or st.responseBody }
  if o.1 then
    ({ st with status := .sent, completedAtSet := true }, true)
  else
    let st := { st with lastError := o.2.2.2.or st.lastError }
    if isLast then
      ({ st with status := .failed, completedAtSet := true }, false)
    else
      (st, false)

/-- The retry loop of executeStep, unrolled on the number of remaining
retries: the attempt with index attempt is performed, and on failure the
loop continues while retries remain.  deliver gives the HTTP outcome of
each attempt. -/
def execStepAux (deliver : Nat → HttpResult) :
    Nat → Nat → StepRunState → StepRunState × Bool
  | 0, attempt, st => stepAttemptUpdate attempt true (deliver attempt) st
  | n + 1, attempt, st =>
    let res := stepAttemptUpdate attempt false (deliver attempt) st
    if res.2 then res else execStepAux deliver n (attempt + 1) res.1

/-- executionChainService.executeStep (execution_chain_service.go lines
396 to 470): creates the step run, then runs the retry loop
for attempt = 0 .. step.MaxRetries.  A negative MaxRetries gives zero loop
iterations in Go, leaving the created row untouched and returning false.
Returns the final persisted step run state and the success flag. -/
def executeStep (step : ExecutionChainStep) (deliver : Nat → HttpResult) :
    StepRunState × Bool :=
  if step.maxRetries < 0 then (initStepRunState, false)
  else execStepAux deliver step.maxRetries.toNat 0 initStepRunState

/-- The writes the chain run loop issues against the run row, mirroring
the two repository methods it calls: UpdateChainRunStep (sets
current_step only) and UpdateChainRunStatus (sets status, and completed_at
for terminal statuses). -/
inductive RunOp where
  | setCurrentStep (n : Nat) : RunOp
  | setStatus (s : ExecutionChainStatus) : RunOp
deriving Repr, DecidableEq

/-- The persisted state of one models.ExecutionChainRun, restricted to the
columns the engine reads or writes.  Times are abstract Nat instants. -/
structure ChainRunState where
  status : ExecutionChainStatus
  currentStep : Nat
  startedAt : Option Nat
  completedAt : Option Nat
  lastError : Option String
deriving Repr, DecidableEq

/-- The run row as created by ExecuteChain (execution_chain_service.go
lines 242 to 255): status Running, current step 0, startedAt now,
completedAt and lastError null. -/
def newChainRun (t0 : Nat) : ChainRunState :=
  ⟨.running, 0, some t0, none, none⟩

/-- Apply one run row write at time t.  setStatus mirrors
executionChainRepository.UpdateChainRunStatus
(execution_chain_repository.go lines 297 to 307): completed_at is set to
NOW() exactly for the statuses completed and failed; setCurrentStep
mirrors UpdateChainRunStep. -/
def applyRunOp (t : Nat) (op : RunOp) (r : ChainRunState) : ChainRunState :=
  match op with
  | .setCurrentStep n => { r with currentStep := n }
  | .setStatus s =>
      { r with status := s,
               completedAt :=
                 if s = .completed ∨ s = .failed then some t
                 else r.completedAt }

/-- Apply a list of run row writes in order; the write with index i
happens at time tm i. -/
def applyRunOps (tm : Nat → Nat) : Nat → ChainRunState → List RunOp → ChainRunState
  | _, r, [] => r
  | i, r, op :: ops => applyRunOps tm (i + 1) (applyRunOp (tm i) op r) ops

/-- All run row states observable while a list of writes is applied in
order, the initial state included. -/
def runStatesFrom (tm : Nat → Nat) : Nat → ChainRunState → List RunOp → List ChainRunState
  | _, r, [] => [r]
  | i, r, op :: ops => r :: runStatesFrom tm (i + 1) (applyRunOp (tm i) op r) ops

/-- executionChainService.executeChainSteps (execution_chain_service.go
lines 335 to 393), per executed step: write current_step, execute the
step (which creates its StepRun), then dispatch on the configured action.
On success, onSuccessAction stop breaks out (the run is then marked
Completed), pause marks the run Paused and returns, anything else
continues; on failure, onFailureAction stop marks the run Failed and
returns, anything else (continue included) proceeds to the next step.
Returns the ordered run row writes, the step orders for which a StepRun
was created, and the final run status. -/
def executeChainSteps (deliver : ExecutionChainStep → Nat → HttpResult) :
    List ExecutionChainStep → List RunOp × List Nat × ExecutionChainStatus
  | [] => ([.setStatus .completed], [], .completed)
  | step :: rest =>
    if (executeStep step (deliver step)).2 then
      if step.onSuccessAction = "stop" then
        ([.setCurrentStep step.stepOrder, .setStatus .completed],
         [step.stepOrder], .completed)
      else if step.onSuccessAction = "pause" then
        ([.setCurrentStep step.stepOrder, .setStatus .paused],
         [step.stepOrder], .paused)
      else
        match executeChainSteps deliver rest with
        | (ops, created, fin) =>
          (.setCurrentStep step.stepOrder :: ops, step.stepOrder :: created, fin)
    else
      if step.onFailureAction = "stop" then
        ([.setCurrentStep step.stepOrder, .setStatus .failed],
         [step.stepOrder], .failed)
      else
        match executeChainSteps deliver rest with
        | (ops, created, fin) =>
          (.setCurrentStep step.stepOrder :: ops, step.stepOrder :: created, fin)

/-- All run row states during one chain run: the row is created by
ExecuteChain at time t0, then the writes of executeChainSteps are applied,
the write with index i at time tm i. -/
def chainRunTrace (steps : List ExecutionChainStep)
    (deliver : ExecutionChainStep → Nat → HttpResult) (t0 : Nat)
    (tm : Nat → Nat) : List ChainRunState :=
  runStatesFrom tm 0 (newChainRun t0) (executeChainSteps deliver steps).1

/-- The run row after the run has finished: all writes of
executeChainSteps applied to the freshly created row. -/
def finalChainRun (steps : List ExecutionChainStep)
    (deliver : ExecutionChainStep → Nat → HttpResult) (t0 : Nat)
    (tm : Nat → Nat) : ChainRunState :=
  applyRunOps tm 0 (newChainRun t0) (executeChainSteps deliver steps).1

/-- A step neither stops nor pauses the run loop: on success its
onSuccessAction is neither stop nor pause, on failure its onFailureAction
is not stop. -/
def stepContinues (deliver : ExecutionChainStep → Nat → HttpResult)
    (s : ExecutionChainStep) : Prop :=
  if (executeStep s (deliver s)).2 then
    s.onSuccessAction ≠ "stop" ∧ s.onSuccessAction ≠ "pause"
  else
    s.onFailureAction ≠ "stop"

instance (deliver : ExecutionChainStep → Nat → HttpResult)
    (s : ExecutionChainStep) : Decidable (stepContinues deliver s) := by
  unfold stepContinues
  exact inferInstance

/-- The webhook resolution and tenant validation loop of
executionChainService.CreateChain (execution_chain_service.go lines 73 to
82): every step webhook id must resolve in the registry and belong to the
requesting tenant; the first violation aborts creation with an error.
lookup embeds webhookRepo.GetSubscriptionByID, i is the zero-based index
of the first remaining step. -/
def validateChainWebhooks (tenantID : String)
    (lookup : String → Option WebhookSubscription) :
    List CreateExecutionChainStep → Nat → Except String Unit
  | [], _ => .ok ()
  | step :: rest, i =>
    match lookup step.webhookID with
    | none => .error ("step " ++ toString (i + 1) ++ ": webhook not found")
    | some w =>
      if w.tenantID ≠ tenantID then
        .error ("step " ++ toString (i + 1) ++ ": webhook belongs to different tenant")
      else validateChainWebhooks tenantID lookup rest (i + 1)

/-- The step row built by CreateChain from one request step
(execution_chain_service.go lines 98 to 137): empty onSuccessAction
defaults to continue, empty onFailureAction to stop, and a MaxRetries of
exactly 0 to 3.  The chain id and step order are filled in later by the
repository; the Webhook association is the Go zero value until preloaded. -/
def buildChainStep (stepReq : CreateExecutionChainStep) : ExecutionChainStep :=
  { id := ""
    chainID := ""
    stepOrder := 0
    webhookID := stepReq.webhookID
    name := stepReq.name
    requestParams := stepReq.requestParams
    onSuccessAction := if stepReq.onSuccessAction = "" then "continue" else stepReq.onSuccessAction
    onFailureAction := if stepReq.onFailureAction = "" then "stop" else stepReq.onFailureAction
    maxRetries := if stepReq.maxRetries = 0 then 3 else stepReq.maxRetries
    delaySeconds := stepReq.delaySeconds
    webhook := WebhookSubscription.zero }

/-- executionChainService.CreateChain restricted to validation and step
construction: the created step rows when validation passes, the
validation error otherwise. -/
def createChainValidated (tenantID : String)
    (lookup : String → Option WebhookSubscription)
    (steps : List CreateExecutionChainStep) :
    Except String (List ExecutionChainStep) :=
  match validateChainWebhooks tenantID lookup steps 0 with
  | .error e => .error e
  | .ok _ => .ok (steps.map buildChainStep)

/-- models.WebhookDeliveryResult: the outcome of one fan-out delivery to
one subscription. -/
structure WebhookDeliveryResult where
  webhookID : String
  targetURL : String
  success : Bool
  responseCode : Option Nat
  error : Option String
  attemptCount : Nat
deriving Repr, DecidableEq

/-- webhookService.sendWebhookToSubscription (webhook_service.go lines 418
to 479): one HTTP POST to the subscription target; a transport error
records a failure with the error text, a response records the status code
and succeeds exactly when 200 <= code < 300.  AttemptCount is always
recorded as 1; the function contains no retry loop. -/
def sendWebhookToSubscription (subscription : WebhookSubscription)
    (r : HttpResult) : WebhookDeliveryResult :=
  let result : WebhookDeliveryResult :=
    { webhookID := subscription.id
      targetURL := subscription.targetURL
      success := false
      responseCode := none
      error := none
      attemptCount := 0 }
  match r with
  | .transportError msg =>
      { result with error := some ("failed to send request: " ++ msg),
                    attemptCount := 1 }
  | .response code body =>
      let result := { result with responseCode := some code, attemptCount := 1 }
      if 200 ≤ code ∧ code < 300 then
        { result with success := true }
      else
        { result with
            error := some ("webhook returned status " ++ toString code ++ ": " ++ body) }

/-- The persisted state of one models.WebhookEvent, restricted to the
columns SendEvent writes.  sentAtSet records whether the sent_at column
has been written. -/
structure WebhookEventState where
  status : WebhookStatus
  sentAtSet : Bool
  lastError : Option String
  attempts : Nat
deriving Repr, DecidableEq

/-- The event row as created by SendEvent before fan-out
(webhook_service.go lines 317 to 330): status pending, nothing else set. -/
def newWebhookEvent : WebhookEventState :=
  ⟨.pending, false, none, 0⟩

/-- The fan-out delivery results of webhookService.SendEvent
(webhook_service.go lines 338 to 347): one sendWebhookToSubscription call
per matching subscription; deliver supplies the HTTP outcome per
subscription. -/
def sendEventDeliveries (subs : List WebhookSubscription)
    (deliver : WebhookSubscription → HttpResult) : List WebhookDeliveryResult :=
  subs.map (fun s => sendWebhookToSubscription s (deliver s))

/-- The event row after webhookService.SendEvent finished
(webhook_service.go lines 349 to 363): Sent with sent_at set when at
least one delivery succeeded and none failed, Failed when at least one
delivery failed (with the all-failed message when every delivery failed),
otherwise left as created; attempts is set to 1. -/
def sendEventFinal (subs : List WebhookSubscription)
    (deliver : WebhookSubscription → HttpResult) : WebhookEventState :=
  let results := sendEventDeliveries subs deliver
  let totalSent := (results.filter (fun r => r.success)).length
  let totalFailed := (results.filter (fun r => !r.success)).length
  let ev := newWebhookEvent
  let ev :=
    if 0 < totalSent ∧ totalFailed = 0 then
      { ev with status := .sent, sentAtSet := true }
    else if 0 < totalFailed then
      { ev with status := .failed,
                lastError :=
                  if totalFailed = subs.length then
                    some ("all " ++ toString totalFailed ++ " webhook deliveries failed")
                  else ev.lastError }
    else ev
  { ev with attempts := 1 }

/-! ## Helper lemmas about the step retry loop -/

/-- One attempt on a non-2xx response: the response is recorded, the
attempt fails, lastError is untouched, and the row is closed as failed
exactly on the last attempt. -/
theorem stepAttemptUpdate_response_fail (attempt : Nat) (isLast : Bool)
    (code : Nat) (body : String) (st : StepRunState)
    (hc : ¬(200 ≤ code ∧ code < 300)) :
    stepAttemptUpdate attempt isLast (.response code body) st =
      (if isLast then
        ⟨.failed, attempt + 1, some code, some body, st.lastError, true⟩
       else
        ⟨st.status, attempt + 1, some code, some body, st.lastError,
         st.completedAtSet⟩, false) := by
  cases isLast <;> simp [stepAttemptUpdate, sendStepWebhook, hc, Option.or]

/-- One attempt on a transport error: no response is recorded, the
attempt fails with the transport error text, and the row is closed as
failed exactly on the last attempt. -/
theorem stepAttemptUpdate_transport (attempt : Nat) (isLast : Bool)
    (msg : String) (st : StepRunState) :
    stepAttemptUpdate attempt isLast (.transportError msg) st =
      (if isLast then
        ⟨.failed, attempt + 1, st.responseCode, st.responseBody,
         some ("failed to send request: " ++ msg), true⟩
       else
        ⟨st.status, attempt + 1, st.responseCode, st.responseBody,
         some ("failed to send request: " ++ msg), st.completedAtSet⟩, false) := by
  cases isLast <;> simp [stepAttemptUpdate, sendStepWebhook, Option.or]

/-- One attempt on a 2xx response: success, the response recorded, the
row closed as sent. -/
theorem stepAttemptUpdate_response_ok (attempt : Nat) (isLast : Bool)
    (code : Nat) (body : String) (st : StepRunState)
    (hc : 200 ≤ code ∧ code < 300) :
    stepAttemptUpdate attempt isLast (.response code body) st =
      (⟨.sent, attempt + 1, some code, some body, st.lastError, true⟩, true) := by
  simp [stepAttemptUpdate, sendStepWebhook, hc, Option.or]

/-- When every attempt yields the same non-2xx response, the retry loop
performs all remaining attempts and ends failed, recording the response
and leaving lastError untouched. -/
theorem execStepAux_const_response (code : Nat) (body : String)
    (hc : ¬(200 ≤ code ∧ code < 300)) :
    ∀ (n attempt : Nat) (st : StepRunState),
      execStepAux (fun _ => .response code body) n attempt st =
        ({ st with status := .failed,
                   attemptCount := attempt + n + 1,
                   responseCode := some code,
                   responseBody := some body,
                   completedAtSet := true }, false) := by
  intro n
  induction n with
  | zero =>
    intro attempt st
    show stepAttemptUpdate attempt true (.response code body) st = _
    rw [stepAttemptUpdate_response_fail attempt true code body st hc]
    simp
  | succ n ih =>
    intro attempt st
    show (let res := stepAttemptUpdate attempt false (.response code body) st
          if res.2 then res else
            execStepAux (fun _ => .response code body) n (attempt + 1) res.1) = _
    rw [stepAttemptUpdate_response_fail attempt false code body st hc]
    simp only [if_false, Bool.false_eq_true]
    rw [ih]
    simp only [Prod.mk.injEq, StepRunState.mk.injEq, and_true, true_and,
      eq_self_iff_true]
    omega

/-- When every attempt yields the same transport error, the retry loop
performs all remaining attempts and ends failed, recording the transport
error text and no response code or body. -/
theorem execStepAux_const_transport (msg : String) :
    ∀ (n attempt : Nat) (st : StepRunState),
      execStepAux (fun _ => .transportError msg) n attempt st =
        ({ st with status := .failed,
                   attemptCount := attempt + n + 1,
                   lastError := some ("failed to send request: " ++ msg),
                   completedAtSet := true }, false) := by
  intro n
  induction n with
  | zero =>
    intro attempt st
    show stepAttemptUpdate attempt true (.transportError msg) st = _
    rw [stepAttemptUpdate_transport attempt true msg st]
    simp
  | succ n ih =>
    intro attempt st
    show (let res := stepAttemptUpdate attempt false (.transportError msg) st
          if res.2 then res else
            execStepAux (fun _ => .transportError msg) n (attempt + 1) res.1) = _
    rw [stepAttemptUpdate_transport attempt false msg st]
    simp only [if_false, Bool.false_eq_true]
    rw [ih]
    simp only [Prod.mk.injEq, StepRunState.mk.injEq, and_true, true_and,
      eq_self_iff_true]
    omega

/-- A 2xx response on the first attempt makes the step succeed with a
single recorded attempt. -/
theorem executeStep_first_success (step : ExecutionChainStep)
    (deliver : Nat → HttpResult) (code : Nat) (body : String)
    (hmr : 0 ≤ step.maxRetries) (hd : deliver 0 = .response code body)
    (hc : 200 ≤ code ∧ code < 300) :
    executeStep step deliver =
      (⟨.sent, 1, some code, some body, none, true⟩, true) := by
  unfold executeStep
  rw [if_neg (by omega)]
  cases hn : step.maxRetries.toNat with
  | zero =>
    show stepAttemptUpdate 0 true (deliver 0) initStepRunState = _
    rw [hd, stepAttemptUpdate_response_ok 0 true code body initStepRunState hc]
    simp [initStepRunState]
  | succ n =>
    show (let res := stepAttemptUpdate 0 false (deliver 0) initStepRunState
          if res.2 then res else execStepAux deliver n 1 res.1) = _
    rw [hd, stepAttemptUpdate_response_ok 0 false code body initStepRunState hc]
    simp [initStepRunState]

/-- The loop of executeStep for a step with nonnegative MaxRetries mr
whose delivery always yields the same non-2xx response: the step fails
after mr + 1 recorded attempts. -/
theorem executeStep_const_response (step : ExecutionChainStep) (mr : Nat)
    (code : Nat) (body : String) (hmr : step.maxRetries = (mr : Int))
    (hc : ¬(200 ≤ code ∧ code < 300)) :
    executeStep step (fun _ => .response code body) =
      (⟨.failed, mr + 1, some code, some body, none, true⟩, false) := by
  unfold executeStep
  rw [if_neg (by omega)]
  rw [show step.maxRetries.toNat = mr by omega]
  rw [execStepAux_const_response code body hc mr 0 initStepRunState]
  simp [initStepRunState]

/-- The loop of executeStep for a step with nonnegative MaxRetries mr
whose delivery always yields the same transport error: the step fails
after mr + 1 recorded attempts, with the transport error recorded. -/
theorem executeStep_const_transport (step : ExecutionChainStep) (mr : Nat)
    (msg : String) (hmr : step.maxRetries = (mr : Int)) :
    executeStep step (fun _ => .transportError msg) =
      (⟨.failed, mr + 1, none, none,
        some ("failed to send request: " ++ msg), true⟩, false) := by
  unfold executeStep
  rw [if_neg (by omega)]
  rw [show step.maxRetries.toNat = mr by omega]
  rw [execStepAux_const_transport msg mr 0 initStepRunState]
  simp [initStepRunState]

/-! ## Helper lemmas about the chain run loop -/

/-- A prefix of steps that all continue is traversed in order: its
current_step writes and created StepRuns come first, and the rest of the
chain then runs unchanged. -/
theorem executeChainSteps_append (deliver : ExecutionChainStep → Nat → HttpResult)
    (pre rest : List ExecutionChainStep)
    (h : ∀ p ∈ pre, stepContinues deliver p) :
    executeChainSteps deliver (pre ++ rest) =
      (pre.map (fun p => RunOp.setCurrentStep p.stepOrder) ++
         (executeChainSteps deliver rest).1,
       pre.map (fun p => p.stepOrder) ++ (executeChainSteps deliver rest).2.1,
       (executeChainSteps deliver rest).2.2) := by
  induction pre with
  | nil => simp
  | cons p pre ih =>
    have hp := h p (List.mem_cons_self p pre)
    have hrest : ∀ q ∈ pre, stepContinues deliver q :=
      fun q hq => h q (List.mem_cons_of_mem p hq)
    unfold stepContinues at hp
    show executeChainSteps deliver (p :: (pre ++ rest)) = _
    rw [show executeChainSteps deliver (p :: (pre ++ rest)) =
      (if (executeStep p (deliver p)).2 then
        if p.onSuccessAction = "stop" then
          ([.setCurrentStep p.stepOrder, .setStatus .completed],
           [p.stepOrder], .completed)
        else if p.onSuccessAction = "pause" then
          ([.setCurrentStep p.stepOrder, .setStatus .paused],
           [p.stepOrder], .paused)
        else
          match executeChainSteps deliver (pre ++ rest) with
          | (ops, created, fin) =>
            (.setCurrentStep p.stepOrder :: ops, p.stepOrder :: created, fin)
      else
        if p.onFailureAction = "stop" then
          ([.setCurrentStep p.stepOrder, .setStatus .failed],
           [p.stepOrder], .failed)
        else
          match executeChainSteps deliver (pre ++ rest) with
          | (ops, created, fin) =>
            (.setCurrentStep p.stepOrder :: ops, p.stepOrder :: created, fin))
      from rfl]
    by_cases hsucc : (executeStep p (deliver p)).2
    · rw [if_pos hsucc]
      rw [if_pos hsucc] at hp
      rw [if_neg hp.1, if_neg hp.2, ih hrest]
      simp
    · rw [if_neg hsucc]
      rw [if_neg hsucc] at hp
      rw [if_neg hp, ih hrest]
      simp

/-- The run row writes produced by the chain loop are zero or more
current_step writes followed by exactly one final status write. -/
theorem executeChainSteps_ops_shape (deliver : ExecutionChainStep → Nat → HttpResult) :
    ∀ steps : List ExecutionChainStep,
      ∃ (orders : List Nat) (stat : ExecutionChainStatus),
        (executeChainSteps deliver steps).1 =
          orders.map RunOp.setCurrentStep ++ [RunOp.setStatus stat] := by
  intro steps
  induction steps with
  | nil => exact ⟨[], .completed, rfl⟩
  | cons p rest ih =>
    obtain ⟨orders, stat, hops⟩ := ih
    have hstep : executeChainSteps deliver (p :: rest) =
      (if (executeStep p (deliver p)).2 then
        if p.onSuccessAction = "stop" then
          (([.setCurrentStep p.stepOrder, .setStatus .completed],
            [p.stepOrder], .completed) :
            List RunOp × List Nat × ExecutionChainStatus)
        else if p.onSuccessAction = "pause" then
          ([.setCurrentStep p.stepOrder, .setStatus .paused],
           [p.stepOrder], .paused)
        else
          match executeChainSteps deliver rest with
          | (ops, created, fin) =>
            (.setCurrentStep p.stepOrder :: ops, p.stepOrder :: created, fin)
      else
        if p.onFailureAction = "stop" then
          ([.setCurrentStep p.stepOrder, .setStatus .failed],
           [p.stepOrder], .failed)
        else
          match executeChainSteps deliver rest with
          | (ops, created, fin) =>
            (.setCurrentStep p.stepOrder :: ops, p.stepOrder :: created, fin)) := rfl
    rw [hstep]
    by_cases hsucc : (executeStep p (deliver p)).2
    · rw [if_pos hsucc]
      by_cases hstop : p.onSuccessAction = "stop"
      · rw [if_pos hstop]
        exact ⟨[p.stepOrder], .completed, rfl⟩
      · rw [if_neg hstop]
        by_cases hpause : p.onSuccessAction = "pause"
        · rw [if_pos hpause]
          exact ⟨[p.stepOrder], .paused, rfl⟩
        · rw [if_neg hpause]
          refine ⟨p.stepOrder :: orders, stat, ?_⟩
          rcases hrec : executeChainSteps deliver rest with ⟨ops, created, fin⟩
          rw [hrec] at hops
          simp at hops
          simp [hops]
    · rw [if_neg hsucc]
      by_cases hstop : p.onFailureAction = "stop"
      · rw [if_pos hstop]
        exact ⟨[p.stepOrder], .failed, rfl⟩
      · rw [if_neg hstop]
        refine ⟨p.stepOrder :: orders, stat, ?_⟩
        rcases hrec : executeChainSteps deliver rest with ⟨ops, created, fin⟩
        rw [hrec] at hops
        simp at hops
        simp [hops]

/-- No run row write ever touches the lastError column (neither repository
method writes it). -/
theorem applyRunOps_lastError (tm : Nat → Nat) :
    ∀ (ops : List RunOp) (i : Nat) (r : ChainRunState),
      (applyRunOps tm i r ops).lastError = r.lastError := by
  intro ops
  induction ops with
  | nil => intro i r; rfl
  | cons op ops ih =>
    intro i r
    show (applyRunOps tm (i + 1) (applyRunOp (tm i) op r) ops).lastError = _
    rw [ih]
    cases op <;> rfl

/-- No run row write touches the startedAt column. -/
theorem applyRunOp_startedAt (t : Nat) (op : RunOp) (r : ChainRunState) :
    (applyRunOp t op r).startedAt = r.startedAt := by
  cases op <;> rfl

/-- The run row invariant of interest: completedAt is set exactly for the
terminal statuses, and never before startedAt. -/
def GoodRunState (r : ChainRunState) : Prop :=
  (r.completedAt ≠ none ↔ (r.status = .completed ∨ r.status = .failed)) ∧
  (∀ tc ts, r.completedAt = some tc → r.startedAt = some ts → ts ≤ tc)

/-- Every state in a trace consisting of current_step writes followed by
one final status write satisfies the run row invariant, provided the
starting state is running with no completion time and every write happens
no earlier than startedAt. -/
theorem runStatesFrom_good (t0 : Nat) (tm : Nat → Nat)
    (htm : ∀ j, t0 ≤ tm j) :
    ∀ (orders : List Nat) (stat : ExecutionChainStatus) (i : Nat)
      (r0 : ChainRunState),
      r0.status = .running → r0.completedAt = none → r0.startedAt = some t0 →
      ∀ r ∈ runStatesFrom tm i r0
          (orders.map RunOp.setCurrentStep ++ [RunOp.setStatus stat]),
        GoodRunState r := by
  intro orders
  induction orders with
  | nil =>
    intro stat i r0 hst hca hsa r hr
    have htr : runStatesFrom tm i r0
        (([] : List Nat).map RunOp.setCurrentStep ++ [RunOp.setStatus stat]) =
        [r0, applyRunOp (tm i) (.setStatus stat) r0] := rfl
    rw [htr] at hr
    simp only [List.mem_cons, List.mem_singleton, List.not_mem_nil, or_false] at hr
    rcases hr with rfl | rfl
    · refine ⟨?_, ?_⟩
      · rw [hca, hst]
        simp
      · intro tc ts h1 h2
        rw [hca] at h1
        cases h1
    · by_cases hterm : stat = .completed ∨ stat = .failed
      · refine ⟨?_, ?_⟩
        · simp [applyRunOp, hterm]
        · intro tc ts h1 h2
          simp only [applyRunOp, if_pos hterm] at h1
          rw [show (applyRunOp (tm i) (.setStatus stat) r0).startedAt = r0.startedAt
            from rfl, hsa] at h2
          have htc : tc = tm i := by
            have := h1
            simp at this
            omega
          have hts : ts = t0 := by
            have := h2
            simp at this
            omega
          rw [htc, hts]
          exact htm i
      · refine ⟨?_, ?_⟩
        · simp only [applyRunOp, if_neg hterm, hca]
          constructor
          · intro h
            exact absurd rfl h
          · intro h
            exact absurd h hterm
        · intro tc ts h1 h2
          simp only [applyRunOp, if_neg hterm, hca] at h1
          cases h1
  | cons o os ih =>
    intro stat i r0 hst hca hsa r hr
    have htr : runStatesFrom tm i r0
        ((o :: os).map RunOp.setCurrentStep ++ [RunOp.setStatus stat]) =
        r0 :: runStatesFrom tm (i + 1) (applyRunOp (tm i) (.setCurrentStep o) r0)
          (os.map RunOp.setCurrentStep ++ [RunOp.setStatus stat]) := rfl
    rw [htr] at hr
    rcases List.mem_cons.mp hr with rfl | hr
    · refine ⟨?_, ?_⟩
      · rw [hca, hst]
        simp
      · intro tc ts h1 h2
        rw [hca] at h1
        cases h1
    · exact ih stat (i + 1) (applyRunOp (tm i) (.setCurrentStep o) r0)
        hst hca hsa r hr

/-! ## Helper lemmas about chain creation and event fan-out -/

/-- If some requested step resolves to a webhook of a different tenant,
the CreateChain validation loop returns an error, whatever the starting
index. -/
theorem validateChainWebhooks_rejects (tenantID : String)
    (lookup : String → Option WebhookSubscription) :
    ∀ (steps : List CreateExecutionChainStep) (i : Nat),
      (∃ s ∈ steps, ∃ w, lookup s.webhookID = some w ∧ w.tenantID ≠ tenantID) →
      ∃ e, validateChainWebhooks tenantID lookup steps i = .error e := by
  intro steps
  induction steps with
  | nil =>
    intro i h
    obtain ⟨s, hs, _⟩ := h
    cases hs
  | cons p rest ih =>
    intro i h
    show ∃ e, (match lookup p.webhookID with
      | none => Except.error ("step " ++ toString (i + 1) ++ ": webhook not found")
      | some w =>
        if w.tenantID ≠ tenantID then
          Except.error ("step " ++ toString (i + 1) ++ ": webhook belongs to different tenant")
        else validateChainWebhooks tenantID lookup rest (i + 1)) = .error e
    cases hl : lookup p.webhookID with
    | none => exact ⟨_, rfl⟩
    | some w =>
      show ∃ e, (if w.tenantID ≠ tenantID then
          Except.error ("step " ++ toString (i + 1) ++ ": webhook belongs to different tenant")
        else validateChainWebhooks tenantID lookup rest (i + 1)) = .error e
      by_cases hw : w.tenantID ≠ tenantID
      · rw [if_pos hw]
        exact ⟨_, rfl⟩
      · rw [if_neg hw]
        push_neg at hw
        obtain ⟨s, hs, ws, hws, hne⟩ := h
        rcases List.mem_cons.mp hs with rfl | hs
        · rw [hl] at hws
          cases hws
          exact absurd hw hne
        · exact ih (i + 1) ⟨s, hs, ws, hws, hne⟩

/-- The final event status of SendEvent in terms of the individual
delivery results: Sent when some delivery succeeded and none failed,
Failed when some delivery failed, otherwise the row keeps its created
Pending status.  All-failure sets the all-failed message. -/
theorem sendEventFinal_characterization (subs : List WebhookSubscription)
    (deliver : WebhookSubscription → HttpResult) :
    ((sendEventFinal subs deliver).status = .sent ↔
      (∃ r ∈ sendEventDeliveries subs deliver, r.success = true) ∧
      ∀ r ∈ sendEventDeliveries subs deliver, r.success = true) ∧
    ((sendEventFinal subs deliver).status = .failed ↔
      ∃ r ∈ sendEventDeliveries subs deliver, r.success = false) ∧
    ((sendEventFinal subs deliver).status = .sent →
      (sendEventFinal subs deliver).sentAtSet = true) ∧
    (subs = [] → (sendEventFinal subs deliver).status = .pending) ∧
    ((∀ r ∈ sendEventDeliveries subs deliver, r.success = false) → subs ≠ [] →
      (sendEventFinal subs deliver).lastError =
        some ("all " ++ toString subs.length ++ " webhook deliveries failed")) := by
  have hlen : (sendEventDeliveries subs deliver).length = subs.length := by
    simp [sendEventDeliveries]
  have hpos : (0 <
      ((sendEventDeliveries subs deliver).filter (fun r => r.success)).length) ↔
      ∃ r ∈ sendEventDeliveries subs deliver, r.success = true := by
    rw [← List.countP_eq_length_filter, List.countP_pos]
  have hzero : (((sendEventDeliveries subs deliver).filter
      (fun r => !r.success)).length = 0) ↔
      ∀ r ∈ sendEventDeliveries subs deliver, r.success = true := by
    rw [← List.countP_eq_length_filter, List.countP_eq_zero]
    simp
  have hfpos : (0 <
      ((sendEventDeliveries subs deliver).filter (fun r => !r.success)).length) ↔
      ∃ r ∈ sendEventDeliveries subs deliver, r.success = false := by
    rw [← List.countP_eq_length_filter, List.countP_pos]
    simp
  have hall : (((sendEventDeliveries subs deliver).filter
      (fun r => !r.success)).length = (sendEventDeliveries subs deliver).length) ↔
      ∀ r ∈ sendEventDeliveries subs deliver, r.success = false := by
    rw [← List.countP_eq_length_filter, List.countP_eq_length]
    simp
  have hval : sendEventFinal subs deliver =
      (if 0 < ((sendEventDeliveries subs deliver).filter (fun r => r.success)).length ∧
          ((sendEventDeliveries subs deliver).filter (fun r => !r.success)).length = 0 then
        ⟨.sent, true, none, 1⟩
       else if 0 < ((sendEventDeliveries subs deliver).filter (fun r => !r.success)).length then
        ⟨.failed, false,
          if ((sendEventDeliveries subs deliver).filter (fun r => !r.success)).length
              = subs.length then
            some ("all " ++
              toString (((sendEventDeliveries subs deliver).filter
                (fun r => !r.success)).length) ++ " webhook deliveries failed")
          else none, 1⟩
       else ⟨.pending, false, none, 1⟩) := by
    simp only [sendEventFinal, newWebhookEvent]
    split
    · rfl
    · split
      · rfl
      · rfl
  rw [hval]
  by_cases h1 : 0 < ((sendEventDeliveries subs deliver).filter
      (fun r => r.success)).length ∧
      ((sendEventDeliveries subs deliver).filter (fun r => !r.success)).length = 0
  · rw [if_pos h1]
    refine ⟨?_, ?_, ?_, ?_, ?_⟩
    · exact ⟨fun _ => ⟨hpos.mp h1.1, hzero.mp h1.2⟩, fun _ => rfl⟩
    · constructor
      · intro h
        cases h
      · intro ⟨r, hr, hrs⟩
        have := hzero.mp h1.2 r hr
        rw [this] at hrs
        cases hrs
    · intro _
      rfl
    · intro hnil
      subst hnil
      simp [sendEventDeliveries] at h1
    · intro hfail hne
      exfalso
      obtain ⟨r, hr, hrs⟩ := hpos.mp h1.1
      have := hfail r hr
      rw [this] at hrs
      cases hrs
  · rw [if_neg h1]
    by_cases h2 : 0 < ((sendEventDeliveries subs deliver).filter
        (fun r => !r.success)).length
    · rw [if_pos h2]
      refine ⟨?_, ?_, ?_, ?_, ?_⟩
      · constructor
        · intro h
          cases h
        · intro ⟨⟨r, hr, hrs⟩, hallsucc⟩
          exact absurd ⟨hpos.mpr ⟨r, hr, hrs⟩, hzero.mpr hallsucc⟩ h1
      · exact ⟨fun _ => hfpos.mp h2, fun _ => rfl⟩
      · intro h
        cases h
      · intro hnil
        subst hnil
        simp [sendEventDeliveries] at h2
      · intro hfail hne
        have hcnt : ((sendEventDeliveries subs deliver).filter
            (fun r => !r.success)).length = subs.length := by
          rw [← hlen]
          exact hall.mpr hfail
        rw [if_pos hcnt, hcnt]
    · rw [if_neg h2]
      refine ⟨?_, ?_, ?_, ?_, ?_⟩
      · constructor
        · intro h
          cases h
        · intro ⟨⟨r, hr, hrs⟩, hallsucc⟩
          exact absurd ⟨hpos.mpr ⟨r, hr, hrs⟩, hzero.mpr hallsucc⟩ h1
      · constructor
        · intro h
          cases h
        · intro ⟨r, hr, hrs⟩
          exact absurd (hfpos.mpr ⟨r, hr, hrs⟩) h2
      · intro h
        cases h
      · intro _
        rfl
      · intro hfail hne
        exfalso
        apply h2
        have hcnt := hall.mpr hfail
        rw [hcnt, hlen]
        cases subs with
        | nil => exact absurd rfl hne
        | cons a l => simp

/-! ## Concrete scenario data -/

/-- Subscription P of spec scenario S4 (tenant T). -/
def subscriptionP : WebhookSubscription :=
  ⟨"sub-p", "T", "payments", "http://p.example/hook", "order.placed",
   false, "secret-p", 3, 5, true⟩

/-- Subscription Q of spec scenario S4 (tenant T). -/
def subscriptionQ : WebhookSubscription :=
  ⟨"sub-q", "T", "billing", "http://q.example/hook", "order.placed",
   false, "secret-q", 3, 5, true⟩

/-- Subscription B of spec scenario S2: retry policy maxRetries 3. -/
def subscriptionB : WebhookSubscription :=
  ⟨"sub-b", "T", "shipping", "http://b.example/hook", "order.placed",
   false, "secret-b", 3, 5, true⟩

/-- The literal placeholder text stored in step 2 of scenario S4. -/
def paymentPlaceholder : String := "\x7b\x7b.step_1.response.payment_id\x7d\x7d"

/-- Step 1 of the S4 chain. -/
def chainStep1 : ExecutionChainStep :=
  ⟨"step-1", "chain-k", 1, "sub-p", "call P", none,
   "continue", "stop", 3, 0, subscriptionP⟩

/-- Step 2 of the S4 chain, with the stored request params holding the
placeholder for the payment id of step 1. -/
def chainStep2 : ExecutionChainStep :=
  ⟨"step-2", "chain-k", 2, "sub-q", "call Q",
   some [("pid", Json.str paymentPlaceholder)],
   "continue", "stop", 3, 0, subscriptionQ⟩

/-- Delivery oracle of scenario S4: step 1 receives the payment object,
step 2 a plain 200. -/
def scenarioS4Deliver : ExecutionChainStep → Nat → HttpResult :=
  fun s _ =>
    if s.stepOrder = 1 then .response 200 "\x7b\"payment_id\":\"PAY-1\"\x7d"
    else .response 200 "ok"

/-- A chain step whose target always answers 4xx, with three retries
configured. -/
def clientErrorStep : ExecutionChainStep :=
  ⟨"step-b", "chain-b", 1, "sub-b", "call B", none,
   "continue", "stop", 3, 0, subscriptionB⟩

/-- A chain step whose target subscription row has been deleted: the
preloaded Webhook association is the Go zero value, so its target URL is
empty and every delivery attempt fails in transport. -/
def orphanStep : ExecutionChainStep :=
  ⟨"step-o", "chain-o", 1, "sub-gone", "call missing", none,
   "continue", "stop", 3, 0, WebhookSubscription.zero⟩

/-! ## Claim 1 -/

/-- C1 counterexample: in the S4 scenario, the request body built for
step 2 carries the placeholder text literally under request_params.pid,
not the substituted value PAY-1: the code performs no template
resolution. -/
theorem chain_step_placeholder_not_substituted :
    ((stepWebhookPayload chainStep2 (some (Json.obj [("order", Json.str "O1")]))
        "2025-01-01T00:00:00Z").getField "request_params").bind
      (fun j => j.getField "pid") = some (Json.str paymentPlaceholder) ∧
    ¬ (((stepWebhookPayload chainStep2 (some (Json.obj [("order", Json.str "O1")]))
        "2025-01-01T00:00:00Z").getField "request_params").bind
      (fun j => j.getField "pid") = some (Json.str "PAY-1")) := by
  refine ⟨rfl, fun h => ?_⟩
  have h2 := Option.some.inj h
  injection h2 with h3
  exact absurd h3 (by decide)

/-- C1 amended: the request body sent for a step carries the stored
request params verbatim under request_params, with no placeholder
substitution; in the S4 two step chain both deliveries succeed and the
run ends Completed with both StepRuns created. -/
theorem chain_step_request_params_verbatim :
    (∀ (step : ExecutionChainStep) (td : Option Json) (ts : String)
        (params : List (String × Json)),
        step.requestParams = some params →
        (stepWebhookPayload step td ts).getField "request_params" =
          some (Json.obj params)) ∧
    (executeChainSteps scenarioS4Deliver [chainStep1, chainStep2]).2.2 =
      .completed ∧
    (executeChainSteps scenarioS4Deliver [chainStep1, chainStep2]).2.1 = [1, 2] := by
  refine ⟨?_, by decide, by decide⟩
  intro step td ts params h
  unfold stepWebhookPayload
  rw [h]
  rfl

/-- C1 witness: the amended theorem applied to step 2 of the S4 chain. -/
theorem chain_step_request_params_verbatim_witness :
    (stepWebhookPayload chainStep2 none "ts").getField "request_params" =
      some (Json.obj [("pid", Json.str paymentPlaceholder)]) :=
  chain_step_request_params_verbatim.1 chainStep2 none "ts"
    [("pid", Json.str paymentPlaceholder)] rfl

/-! ## Claim 2 -/

/-- C2 counterexample: a step whose target always answers HTTP 400 with
maxRetries 3 records four attempts, not one: 4xx responses are retried
like any other failure. -/
theorem chain_step_4xx_retried :
    clientErrorStep.maxRetries = 3 ∧
    (executeStep clientErrorStep (fun _ => .response 400 "bad")).1.attemptCount = 4 ∧
    (executeStep clientErrorStep (fun _ => .response 400 "bad")).1.attemptCount ≠ 1 := by
  decide

/-- C2 amended: HTTP 2xx means success and the step stops after that
attempt; every non-2xx response (4xx and 5xx alike) is retried while
attempts remain, so a step whose target always answers any fixed non-2xx
code performs maxRetries + 1 attempts and ends Failed. -/
theorem chain_step_retry_classification :
    (∀ (step : ExecutionChainStep) (deliver : Nat → HttpResult)
        (code : Nat) (body : String),
        0 ≤ step.maxRetries → deliver 0 = .response code body →
        200 ≤ code → code < 300 →
        (executeStep step deliver).2 = true ∧
        (executeStep step deliver).1.attemptCount = 1) ∧
    (∀ (step : ExecutionChainStep) (mr code : Nat) (body : String),
        step.maxRetries = (mr : Int) → ¬(200 ≤ code ∧ code < 300) →
        (executeStep step (fun _ => .response code body)).2 = false ∧
        (executeStep step (fun _ => .response code body)).1.attemptCount = mr + 1 ∧
        (executeStep step (fun _ => .response code body)).1.status = .failed) := by
  constructor
  · intro step deliver code body hmr hd h1 h2
    rw [executeStep_first_success step deliver code body hmr hd ⟨h1, h2⟩]
    exact ⟨rfl, rfl⟩
  · intro step mr code body hmr hc
    rw [executeStep_const_response step mr code body hmr hc]
    exact ⟨rfl, rfl, rfl⟩

/-- C2 witness: the amended theorem applied to the always-400 step with
maxRetries 3, and to a first-attempt 200. -/
theorem chain_step_retry_classification_witness :
    ((executeStep clientErrorStep (fun _ => .response 400 "bad")).2 = false ∧
     (executeStep clientErrorStep (fun _ => .response 400 "bad")).1.attemptCount = 3 + 1 ∧
     (executeStep clientErrorStep (fun _ => .response 400 "bad")).1.status = .failed) ∧
    ((executeStep chainStep1 (fun _ => .response 200 "ok")).2 = true ∧
     (executeStep chainStep1 (fun _ => .response 200 "ok")).1.attemptCount = 1) :=
  ⟨chain_step_retry_classification.2 clientErrorStep 3 400 "bad" (by decide)
     (by decide),
   chain_step_retry_classification.1 chainStep1 (fun _ => .response 200 "ok")
     200 "ok" (by decide) rfl (by decide) (by decide)⟩

/-! ## Claim 3 -/

/-- C3 evaluation: the fan-out delivery procedure performs exactly one
HTTP attempt whatever the outcome; its result does not depend on the
retry policy fields at all, and the recorded attemptCount is 1 for a
500-answering endpoint with maxRetries 3 just as for a 400-answering
one. -/
theorem fanout_delivery_single_attempt :
    (∀ (sub : WebhookSubscription) (mr rd : Int) (r : HttpResult),
        sendWebhookToSubscription
            { sub with maxRetries := mr, retryDelaySeconds := rd } r =
          sendWebhookToSubscription sub r) ∧
    subscriptionB.maxRetries = 3 ∧
    (sendWebhookToSubscription subscriptionB (.response 500 "boom")).attemptCount = 1 ∧
    (sendWebhookToSubscription subscriptionB (.response 400 "bad")).attemptCount = 1 := by
  refine ⟨fun sub mr rd r => ?_, by decide, by decide, by decide⟩
  cases r <;> rfl

/-! ## Claim 4 -/

/-- C4 counterexample: a step whose preloaded webhook row is gone fails
in transport on every attempt and is retried through all maxRetries + 1
attempts, with the transport error text recorded: there is no immediate
TargetMissing failure and no retry suppression. -/
theorem deleted_subscription_step_retried :
    orphanStep.maxRetries = 3 ∧
    (executeStep orphanStep
      (fun _ => .transportError "no Host in request URL")).1.attemptCount = 4 ∧
    (executeStep orphanStep
      (fun _ => .transportError "no Host in request URL")).1.attemptCount ≠ 1 ∧
    (executeStep orphanStep
      (fun _ => .transportError "no Host in request URL")).1.lastError =
      some "failed to send request: no Host in request URL" := by
  decide

/-- C4 amended: the step executor does not resolve the subscription from
the registry; it uses the webhook preloaded on the step, and a delivery
that fails in transport on every attempt (as with a deleted target) is
retried like any other failure: maxRetries + 1 attempts, final status
Failed, the transport error recorded as the StepRun lastError. -/
theorem deleted_subscription_transport_retried :
    ∀ (step : ExecutionChainStep) (mr : Nat) (msg : String),
      step.maxRetries = (mr : Int) →
      executeStep step (fun _ => .transportError msg) =
        (⟨.failed, mr + 1, none, none,
          some ("failed to send request: " ++ msg), true⟩, false) :=
  fun step mr msg hmr => executeStep_const_transport step mr msg hmr

/-- C4 witness: the amended theorem applied to the orphaned step. -/
theorem deleted_subscription_transport_retried_witness :
    executeStep orphanStep (fun _ => .transportError "no Host in request URL") =
      (⟨.failed, 3 + 1, none, none,
        some ("failed to send request: " ++ "no Host in request URL"), true⟩, false) :=
  deleted_subscription_transport_retried orphanStep 3 "no Host in request URL"
    (by decide)

/-! ## Claim 5 -/

/-- C5 counterexample: an event dispatched while no subscription matches
has zero successes, yet the event row is not marked Failed: it stays
Pending, against the Sent-or-Failed dichotomy of the claim. -/
theorem event_without_subscriptions_stays_pending :
    (sendEventFinal [] (fun _ => .transportError "unused")).status = .pending ∧
    (sendEventFinal [] (fun _ => .transportError "unused")).status ≠ .failed := by
  decide

/-- C5 amended: the event row is created Pending; after fan-out it is
Sent (with sentAt set) exactly when at least one delivery succeeded and
none failed, Failed exactly when at least one delivery failed, and it
remains Pending when there are no matching subscriptions; when every
delivery failed the lastError message is the all-failed message. -/
theorem event_status_lifecycle :
    newWebhookEvent.status = .pending ∧
    ∀ (subs : List WebhookSubscription) (deliver : WebhookSubscription → HttpResult),
      ((sendEventFinal subs deliver).status = .sent ↔
        (∃ r ∈ sendEventDeliveries subs deliver, r.success = true) ∧
        ∀ r ∈ sendEventDeliveries subs deliver, r.success = true) ∧
      ((sendEventFinal subs deliver).status = .failed ↔
        ∃ r ∈ sendEventDeliveries subs deliver, r.success = false) ∧
      ((sendEventFinal subs deliver).status = .sent →
        (sendEventFinal subs deliver).sentAtSet = true) ∧
      (subs = [] → (sendEventFinal subs deliver).status = .pending) ∧
      ((∀ r ∈ sendEventDeliveries subs deliver, r.success = false) → subs ≠ [] →
        (sendEventFinal subs deliver).lastError =
          some ("all " ++ toString subs.length ++ " webhook deliveries failed")) :=
  ⟨rfl, sendEventFinal_characterization⟩

/-- C5 witness: the amended theorem applied to an all-failed fan-out to
subscription B and to an empty fan-out. -/
theorem event_status_lifecycle_witness :
    (sendEventFinal [] (fun _ => .response 200 "ok")).status = .pending ∧
    (sendEventFinal [subscriptionB] (fun _ => .response 500 "err")).lastError =
      some "all 1 webhook deliveries failed" ∧
    (sendEventFinal [subscriptionB] (fun _ => .response 500 "err")).status = .failed :=
  ⟨(event_status_lifecycle.2 [] (fun _ => .response 200 "ok")).2.2.2.1 rfl,
   (event_status_lifecycle.2 [subscriptionB] (fun _ => .response 500 "err")).2.2.2.2
     (by decide) (by decide),
   ((event_status_lifecycle.2 [subscriptionB]
       (fun _ => .response 500 "err")).2.1).mpr
     ⟨sendWebhookToSubscription subscriptionB (.response 500 "err"),
      by decide, by decide⟩⟩

/-! ## Claim 6 -/

/-- A subscription belonging to a tenant other than T. -/
def crossTenantSub : WebhookSubscription :=
  ⟨"sub-x", "other-tenant", "intruder", "http://x.example/hook", "order.placed",
   false, "secret-x", 3, 5, true⟩

/-- A stored chain step of a tenant-T chain whose preloaded webhook
belongs to the other tenant. -/
def crossTenantStep : ExecutionChainStep :=
  ⟨"step-x", "chain-t", 1, "sub-x", "call X", none,
   "continue", "stop", 3, 0, crossTenantSub⟩

/-- The request step and registry used in the C6 witness. -/
def crossTenantReqStep : CreateExecutionChainStep :=
  ⟨"sub-x", "call X", "", none, "", "", 0, 0⟩

/-- A registry resolving only the cross-tenant subscription. -/
def crossTenantRegistry : String → Option WebhookSubscription :=
  fun i => if i = "sub-x" then some crossTenantSub else none

/-- C6 counterexample: a stored step whose webhook belongs to a
different tenant than the chain is executed and delivered without any
validation error: step execution performs no tenant check, so the
cross-tenant delivery happens and the run completes. -/
theorem cross_tenant_step_executed :
    crossTenantStep.webhook.tenantID ≠ "T" ∧
    (executeStep crossTenantStep (fun _ => .response 200 "ok")).2 = true ∧
    (executeStep crossTenantStep (fun _ => .response 200 "ok")).1.status = .sent ∧
    (executeChainSteps (fun _ _ => .response 200 "ok") [crossTenantStep]).2.2 =
      .completed := by
  decide

/-- C6 amended: the tenant check exists only at chain creation, where a
step resolving to a webhook of a different tenant aborts creation with an
error; step execution reads nothing from the webhook record, so it can
reject nothing: its outcome is unchanged under any replacement of the
step webhook. -/
theorem cross_tenant_validation :
    (∀ (tenantID : String) (lookup : String → Option WebhookSubscription)
        (steps : List CreateExecutionChainStep),
        (∃ s ∈ steps, ∃ w, lookup s.webhookID = some w ∧ w.tenantID ≠ tenantID) →
        ∃ e, createChainValidated tenantID lookup steps = .error e) ∧
    (∀ (step : ExecutionChainStep) (w : WebhookSubscription)
        (deliver : Nat → HttpResult),
        executeStep { step with webhook := w } deliver = executeStep step deliver) := by
  constructor
  · intro tenantID lookup steps h
    obtain ⟨e, he⟩ := validateChainWebhooks_rejects tenantID lookup steps 0 h
    refine ⟨e, ?_⟩
    unfold createChainValidated
    rw [he]
  · intro step w deliver
    rfl

/-- C6 witness: the amended theorem applied to a creation request whose
only step targets the cross-tenant subscription. -/
theorem cross_tenant_validation_witness :
    ∃ e, createChainValidated "T" crossTenantRegistry [crossTenantReqStep] =
      .error e :=
  cross_tenant_validation.1 "T" crossTenantRegistry [crossTenantReqStep]
    ⟨crossTenantReqStep, List.mem_singleton.mpr rfl, crossTenantSub,
     by decide, by decide⟩

/-! ## Claim 7 -/

/-- A step with no retries whose failure stops the chain. -/
def stopOnFailureStep : ExecutionChainStep :=
  ⟨"step-f", "chain-f", 1, "sub-f", "call F", none,
   "continue", "stop", 0, 0, subscriptionP⟩

/-- Delivery oracle that always fails in transport. -/
def alwaysTransportFail : ExecutionChainStep → Nat → HttpResult :=
  fun _ _ => .transportError "boom"

/-- C7 counterexample: the failing stop-step leaves the run Failed, the
delivery error is recorded on the StepRun, yet the run row lastError
stays null: the engine never writes the run lastError column, against the
claim that it is set to the step outcome error. -/
theorem run_lastError_never_written :
    (finalChainRun [stopOnFailureStep] alwaysTransportFail 3 (fun _ => 5)).status =
      .failed ∧
    (executeStep stopOnFailureStep
      (alwaysTransportFail stopOnFailureStep)).1.lastError =
      some "failed to send request: boom" ∧
    (finalChainRun [stopOnFailureStep] alwaysTransportFail 3 (fun _ => 5)).lastError =
      none ∧
    (finalChainRun [stopOnFailureStep] alwaysTransportFail 3 (fun _ => 5)).lastError ≠
      (executeStep stopOnFailureStep
        (alwaysTransportFail stopOnFailureStep)).1.lastError := by
  decide

/-- C7 amended: when a reached step fails and its onFailureAction is
stop, the run is marked Failed and no later step gets a StepRun; however
the run row lastError is never written by any run update (the delivery
error lives only on the StepRun row). -/
theorem on_failure_stop_marks_run_failed :
    (∀ (pre : List ExecutionChainStep) (s : ExecutionChainStep)
        (post : List ExecutionChainStep)
        (deliver : ExecutionChainStep → Nat → HttpResult),
        (∀ p ∈ pre, stepContinues deliver p) →
        (executeStep s (deliver s)).2 = false →
        s.onFailureAction = "stop" →
        (executeChainSteps deliver (pre ++ s :: post)).2.2 = .failed ∧
        (executeChainSteps deliver (pre ++ s :: post)).2.1 =
          (pre ++ [s]).map (fun p => p.stepOrder)) ∧
    (∀ (steps : List ExecutionChainStep)
        (deliver : ExecutionChainStep → Nat → HttpResult) (t0 : Nat)
        (tm : Nat → Nat),
        (finalChainRun steps deliver t0 tm).lastError = none) := by
  constructor
  · intro pre s post deliver hpre hfail hstop
    have hhead : executeChainSteps deliver (s :: post) =
        ([.setCurrentStep s.stepOrder, .setStatus .failed],
         [s.stepOrder], .failed) := by
      have hstep : executeChainSteps deliver (s :: post) =
        (if (executeStep s (deliver s)).2 then
          if s.onSuccessAction = "stop" then
            ([.setCurrentStep s.stepOrder, .setStatus .completed],
             [s.stepOrder], .completed)
          else if s.onSuccessAction = "pause" then
            ([.setCurrentStep s.stepOrder, .setStatus .paused],
             [s.stepOrder], .paused)
          else
            match executeChainSteps deliver post with
            | (ops, created, fin) =>
              (.setCurrentStep s.stepOrder :: ops, s.stepOrder :: created, fin)
        else
          if s.onFailureAction = "stop" then
            ([.setCurrentStep s.stepOrder, .setStatus .failed],
             [s.stepOrder], .failed)
          else
            match executeChainSteps deliver post with
            | (ops, created, fin) =>
              (.setCurrentStep s.stepOrder :: ops, s.stepOrder :: created, fin)) := rfl
      rw [hstep, hfail]
      simp [hstop]
    rw [executeChainSteps_append deliver pre (s :: post) hpre, hhead]
    simp
  · intro steps deliver t0 tm
    unfold finalChainRun
    rw [applyRunOps_lastError]
    rfl

/-- C7 witness: the amended theorem applied to the single failing
stop-step chain. -/
theorem on_failure_stop_marks_run_failed_witness :
    ((executeChainSteps alwaysTransportFail [stopOnFailureStep]).2.2 = .failed ∧
     (executeChainSteps alwaysTransportFail [stopOnFailureStep]).2.1 =
       [stopOnFailureStep].map (fun p => p.stepOrder)) ∧
    (finalChainRun [stopOnFailureStep] alwaysTransportFail 3 (fun _ => 5)).lastError =
      none :=
  ⟨on_failure_stop_marks_run_failed.1 [] stopOnFailureStep []
     alwaysTransportFail (fun p hp => absurd hp (List.not_mem_nil p))
     (by decide) rfl,
   on_failure_stop_marks_run_failed.2 [stopOnFailureStep] alwaysTransportFail 3
     (fun _ => 5)⟩

/-! ## Claim 8 -/

/-- A step with no retries whose success stops the chain. -/
def stopOnSuccessStep : ExecutionChainStep :=
  ⟨"step-s", "chain-s", 1, "sub-p", "call S", none,
   "stop", "stop", 0, 0, subscriptionP⟩

/-- C8: when a reached step succeeds and its onSuccessAction is stop, the
run is marked Completed and StepRuns exist exactly for the steps up to
and including the stopping step: nothing after it is executed. -/
theorem on_success_stop_completes_run :
    ∀ (pre : List ExecutionChainStep) (s : ExecutionChainStep)
      (post : List ExecutionChainStep)
      (deliver : ExecutionChainStep → Nat → HttpResult),
      (∀ p ∈ pre, stepContinues deliver p) →
      (executeStep s (deliver s)).2 = true →
      s.onSuccessAction = "stop" →
      (executeChainSteps deliver (pre ++ s :: post)).2.2 = .completed ∧
      (executeChainSteps deliver (pre ++ s :: post)).2.1 =
        (pre ++ [s]).map (fun p => p.stepOrder) := by
  intro pre s post deliver hpre hsucc hstop
  have hhead : executeChainSteps deliver (s :: post) =
      ([.setCurrentStep s.stepOrder, .setStatus .completed],
       [s.stepOrder], .completed) := by
    have hstep : executeChainSteps deliver (s :: post) =
      (if (executeStep s (deliver s)).2 then
        if s.onSuccessAction = "stop" then
          ([.setCurrentStep s.stepOrder, .setStatus .completed],
           [s.stepOrder], .completed)
        else if s.onSuccessAction = "pause" then
          ([.setCurrentStep s.stepOrder, .setStatus .paused],
           [s.stepOrder], .paused)
        else
          match executeChainSteps deliver post with
          | (ops, created, fin) =>
            (.setCurrentStep s.stepOrder :: ops, s.stepOrder :: created, fin)
      else
        if s.onFailureAction = "stop" then
          ([.setCurrentStep s.stepOrder, .setStatus .failed],
           [s.stepOrder], .failed)
        else
          match executeChainSteps deliver post with
          | (ops, created, fin) =>
            (.setCurrentStep s.stepOrder :: ops, s.stepOrder :: created, fin)) := rfl
    rw [hstep, hsucc]
    simp [hstop]
  rw [executeChainSteps_append deliver pre (s :: post) hpre, hhead]
  simp

/-- C8 witness: the theorem applied to a chain where the stopping step is
followed by a further step, which never runs. -/
theorem on_success_stop_completes_run_witness :
    (executeChainSteps (fun _ _ => .response 200 "ok")
      ([] ++ stopOnSuccessStep :: [chainStep2])).2.2 = .completed ∧
    (executeChainSteps (fun _ _ => .response 200 "ok")
      ([] ++ stopOnSuccessStep :: [chainStep2])).2.1 =
      ([] ++ [stopOnSuccessStep]).map (fun p : ExecutionChainStep => p.stepOrder) :=
  on_success_stop_completes_run [] stopOnSuccessStep [chainStep2]
    (fun _ _ => .response 200 "ok") (fun p hp => absurd hp (List.not_mem_nil p))
    (by decide) rfl

/-! ## Claim 9 -/

/-- C9: along every run trace (the created row plus every repository
write the engine issues, each write at a time no earlier than the start),
completedAt is set exactly when the status is Completed or Failed, and
any completion time is at or after startedAt. -/
theorem run_completedAt_iff_terminal :
    ∀ (steps : List ExecutionChainStep)
      (deliver : ExecutionChainStep → Nat → HttpResult)
      (t0 : Nat) (tm : Nat → Nat),
      (∀ j, t0 ≤ tm j) →
      ∀ r ∈ chainRunTrace steps deliver t0 tm,
        (r.completedAt ≠ none ↔ (r.status = .completed ∨ r.status = .failed)) ∧
        (∀ tc ts, r.completedAt = some tc → r.startedAt = some ts → ts ≤ tc) := by
  intro steps deliver t0 tm htm r hr
  obtain ⟨orders, stat, hops⟩ := executeChainSteps_ops_shape deliver steps
  unfold chainRunTrace at hr
  rw [hops] at hr
  exact runStatesFrom_good t0 tm htm orders stat 0 (newChainRun t0) rfl rfl rfl r hr

/-- C9 witness: the theorem applied to the failing stop-step chain at
start time 3 with all writes at time 5; the final run state is terminal
with completedAt 5, at or after startedAt 3. -/
theorem run_completedAt_iff_terminal_witness :
    ((finalChainRun [stopOnFailureStep] alwaysTransportFail 3 (fun _ => 5)).completedAt
        ≠ none ↔
      ((finalChainRun [stopOnFailureStep] alwaysTransportFail 3 (fun _ => 5)).status =
          .completed ∨
       (finalChainRun [stopOnFailureStep] alwaysTransportFail 3 (fun _ => 5)).status =
          .failed)) ∧
    (∀ tc ts,
      (finalChainRun [stopOnFailureStep] alwaysTransportFail 3 (fun _ => 5)).completedAt =
        some tc →
      (finalChainRun [stopOnFailureStep] alwaysTransportFail 3 (fun _ => 5)).startedAt =
        some ts → ts ≤ tc) :=
  run_completedAt_iff_terminal [stopOnFailureStep] alwaysTransportFail 3
    (fun _ => 5) (fun _ => by show (3 : Nat) ≤ 5; omega)
    (finalChainRun [stopOnFailureStep] alwaysTransportFail 3 (fun _ => 5))
    (by decide)

/-! ## Claim 10 -/

/-- A creation request step leaving every defaultable field at its zero
value. -/
def defaultReqStep : CreateExecutionChainStep :=
  ⟨"sub-p", "step with defaults", "", none, "", "", 0, 0⟩

/-- A registry resolving every id to subscription P (tenant T). -/
def tenantTRegistry : String → Option WebhookSubscription :=
  fun _ => some subscriptionP

/-- C10: CreateChain stores maxRetries 3 for a step requested with
maxRetries 0, defaults empty onSuccessAction to continue and empty
onFailureAction to stop, and consequently no step stored through
CreateChain ever has maxRetries 0. -/
theorem create_chain_defaults :
    (∀ req : CreateExecutionChainStep, req.maxRetries = 0 →
        (buildChainStep req).maxRetries = 3) ∧
    (∀ req : CreateExecutionChainStep, req.onSuccessAction = "" →
        (buildChainStep req).onSuccessAction = "continue") ∧
    (∀ req : CreateExecutionChainStep, req.onFailureAction = "" →
        (buildChainStep req).onFailureAction = "stop") ∧
    (∀ (tenantID : String) (lookup : String → Option WebhookSubscription)
        (reqs : List CreateExecutionChainStep) (stored : List ExecutionChainStep),
        createChainValidated tenantID lookup reqs = .ok stored →
        ∀ s ∈ stored, s.maxRetries ≠ 0) := by
  refine ⟨?_, ?_, ?_, ?_⟩
  · intro req h
    simp [buildChainStep, h]
  · intro req h
    simp [buildChainStep, h]
  · intro req h
    simp [buildChainStep, h]
  · intro tenantID lookup reqs stored hok s hs
    unfold createChainValidated at hok
    cases hv : validateChainWebhooks tenantID lookup reqs 0 with
    | error e =>
      rw [hv] at hok
      cases hok
    | ok u =>
      rw [hv] at hok
      have hstored : reqs.map buildChainStep = stored := by
        cases hok
        rfl
      rw [← hstored] at hs
      obtain ⟨req, hreq, hbuilt⟩ := List.mem_map.mp hs
      rw [← hbuilt]
      intro hzero
      by_cases h : req.maxRetries = 0
      · rw [show (buildChainStep req).maxRetries = 3 from by
          simp [buildChainStep, h]] at hzero
        exact absurd hzero (by decide)
      · rw [show (buildChainStep req).maxRetries = req.maxRetries from by
          simp [buildChainStep, h]] at hzero
        exact h hzero

/-- C10 witness: the theorem applied to the all-defaults request step and
to a chain created from it. -/
theorem create_chain_defaults_witness :
    (buildChainStep defaultReqStep).maxRetries = 3 ∧
    (buildChainStep defaultReqStep).onSuccessAction = "continue" ∧
    (buildChainStep defaultReqStep).onFailureAction = "stop" ∧
    (buildChainStep defaultReqStep).maxRetries ≠ 0 :=
  ⟨create_chain_defaults.1 defaultReqStep rfl,
   create_chain_defaults.2.1 defaultReqStep rfl,
   create_chain_defaults.2.2.1 defaultReqStep rfl,
   create_chain_defaults.2.2.2 "T" tenantTRegistry [defaultReqStep]
     ([defaultReqStep].map buildChainStep) rfl
     (buildChainStep defaultReqStep) (List.mem_singleton.mpr rfl)⟩

end LokiSuite
